import Mathlib

/- Formal model of `plugins/agent-creator/skills/agent-creator/scripts/init_agent.py`.
   The script validates an agent name, looks up one of seven fixed templates,
   creates the target directory chain, refuses to overwrite an existing file,
   and writes a rendered agent definition file. -/

set_option maxRecDepth 4096

namespace InitAgent

/-- Lowercase ASCII letter test, the `[a-z]` character class of the script's regex. -/
def isAsciiLower (c : Char) : Bool := 97 ≤ c.toNat && c.toNat ≤ 122

/-- Membership in the `[a-z0-9-]` character class of the script's regex. -/
def isNameTail (c : Char) : Bool :=
  isAsciiLower c || (48 ≤ c.toNat && c.toNat ≤ 57) || c == '-'

/-- Match of the regex body `[a-z][a-z0-9-]*` against an entire character list. -/
def matchesCoreList : List Char → Bool
  | [] => false
  | c :: rest => isAsciiLower c && rest.all isNameTail

/-- The name pattern as the spec states it: the whole string matches
`^[a-z][a-z0-9-]*$` in the mathematical sense (anchored at both true ends). -/
def specNamePattern (s : String) : Bool := matchesCoreList s.data

/-- Embeds `validate_name` (init_agent.py line 221-223):
`bool(re.match(r'^[a-z][a-z0-9-]*$', name))`.  Python's `re.match` anchors at the
start, and `$` matches either at the end of the string or just before a newline
that is the last character; so the call also accepts a match that leaves exactly
one trailing newline unconsumed. -/
def validate_name (s : String) : Bool :=
  matchesCoreList s.data ||
    (s.data.getLast? == some '\n' && matchesCoreList s.data.dropLast)

/-- One entry of the `TEMPLATES` dictionary (init_agent.py lines 27-218):
a tools list, a model identifier and a prompt body. -/
structure Template where
  tools : List String
  model : String
  prompt : String
deriving DecidableEq

/-- Prompt body of the `researcher` template (init_agent.py lines 31-53). -/
def researcher_prompt : String := "You are a research specialist focused on finding and analyzing information.\n\n## Capabilities\n\n- Search and retrieve information from files and web\n- Analyze documentation and code\n- Identify patterns and relationships\n- Synthesize findings into clear summaries\n\n## Guidelines\n\n- Explore thoroughly before drawing conclusions\n- Cite sources and file locations for findings\n- Acknowledge uncertainty when present\n- Present multiple perspectives when relevant\n\n## Output Format\n\nProvide findings with:\n1. Summary of key discoveries\n2. Supporting evidence with file paths or URLs\n3. Confidence level for conclusions\n4. Suggestions for further investigation if needed"

/-- Prompt body of the `reviewer` template (init_agent.py lines 59-89). -/
def reviewer_prompt : String := "You are a senior software engineer specializing in code review.\n\n## Review Focus Areas\n\n1. **Security** - Vulnerabilities, injection risks, auth issues\n2. **Performance** - Inefficiencies, N+1 queries, memory leaks\n3. **Maintainability** - Complexity, duplication, unclear logic\n4. **Correctness** - Edge cases, error handling, type safety\n\n## Review Process\n\n1. Understand the code\x27s purpose and context\n2. Read all relevant files before commenting\n3. Check for security vulnerabilities first\n4. Analyze performance implications\n5. Evaluate maintainability and readability\n\n## Output Format\n\nFor each issue found:\n- **Severity**: Critical / Warning / Suggestion\n- **Location**: file:line\n- **Issue**: Clear description\n- **Recommendation**: Specific fix\n\n## Guidelines\n\n- Do not make changes, only analyze and report\n- Be specific with line numbers and code references\n- Explain *why* something is an issue, not just *what*\n- Prioritize security and correctness over style"

/-- Prompt body of the `specialist` template (init_agent.py lines 95-110). -/
def specialist_prompt : String := "You are a specialist in [DOMAIN].\n\n## Expertise\n\n- [List your areas of expertise]\n- [Add specific technologies/frameworks]\n- [Include relevant patterns/practices]\n\n## Guidelines\n\n- Follow established patterns in the codebase\n- Write clean, maintainable code\n- Keep solutions simple and focused\n- Test changes appropriately\n\nAvoid over-engineering. Only make changes directly requested or clearly necessary."

/-- Prompt body of the `builder` template (init_agent.py lines 116-142). -/
def builder_prompt : String := "You are an implementation specialist focused on writing quality code.\n\n## Approach\n\n1. Understand requirements completely before coding\n2. Read existing code to understand patterns\n3. Implement minimal, focused changes\n4. Test changes work correctly\n5. Clean up after yourself\n\n## Guidelines\n\nAvoid over-engineering. Only make changes directly requested or clearly necessary.\nKeep solutions simple and focused.\n\nDo not:\n- Add features beyond what was asked\n- Refactor surrounding code during bug fixes\n- Create abstractions for one-time operations\n- Add error handling for impossible scenarios\n\n## Code Standards\n\n- Follow existing patterns in the codebase\n- Write clear, self-documenting code\n- Handle errors at system boundaries\n- Use TypeScript types appropriately"

/-- Prompt body of the `quick` template (init_agent.py lines 148-157). -/
def quick_prompt : String := "You are a fast, efficient assistant for quick tasks.\n\n## Focus\n\n- Concise answers\n- Direct solutions\n- Fast turnaround\n- No over-explanation\n\nKeep responses brief. Get to the point immediately."

/-- Prompt body of the `orchestrator` template (init_agent.py lines 163-179). -/
def orchestrator_prompt : String := "You are a technical coordinator who accomplishes complex tasks by delegating to specialized sub-agents.\n\n## Coordination Strategy\n\n1. Break complex tasks into discrete sub-tasks\n2. Identify which sub-agent is best for each\n3. Spawn sub-agents in parallel when independent\n4. Synthesize results into cohesive outcome\n5. Track progress with TodoWrite\n\n## Guidelines\n\n- Plan before executing\n- Delegate rather than implement directly\n- Run independent sub-agents in parallel\n- Verify sub-agent results before proceeding\n- Maintain overall coherence across sub-tasks"

/-- Prompt body of the `planner` template (init_agent.py lines 185-216). -/
def planner_prompt : String := "You are a software architect focused on design and planning.\n\n## Responsibilities\n\n- Analyze requirements and constraints\n- Design system architecture\n- Create implementation roadmaps\n- Identify risks and trade-offs\n- Document technical decisions\n\n## Process\n\n1. Understand current state and requirements\n2. Research relevant patterns and solutions\n3. Design architecture with clear boundaries\n4. Create step-by-step implementation plan\n5. Document decisions and trade-offs\n\n## Output Format\n\nPlans should include:\n1. **Overview** - What and why\n2. **Architecture** - Components and relationships\n3. **Implementation Steps** - Ordered, actionable tasks\n4. **Risks** - Potential issues and mitigations\n5. **Trade-offs** - Decisions made and alternatives considered\n\n## Guidelines\n\n- Do not implement, only plan\n- Consider maintainability and scalability\n- Identify dependencies between steps"

/-- Registry entry for the `researcher` pattern (init_agent.py lines 28-54). -/
def researcherTemplate : Template :=
  { tools := ["Read", "Grep", "Glob", "WebSearch", "WebFetch"],
    model := "sonnet", prompt := researcher_prompt }

/-- Registry entry for the `reviewer` pattern (init_agent.py lines 56-90). -/
def reviewerTemplate : Template :=
  { tools := ["Read", "Grep", "Glob", "Bash"],
    model := "sonnet", prompt := reviewer_prompt }

/-- Registry entry for the `specialist` pattern (init_agent.py lines 92-111). -/
def specialistTemplate : Template :=
  { tools := ["Read", "Write", "Edit", "Grep", "Glob", "Bash"],
    model := "sonnet", prompt := specialist_prompt }

/-- Registry entry for the `builder` pattern (init_agent.py lines 113-143). -/
def builderTemplate : Template :=
  { tools := ["Read", "Write", "Edit", "Grep", "Glob", "Bash", "TodoWrite"],
    model := "sonnet", prompt := builder_prompt }

/-- Registry entry for the `quick` pattern (init_agent.py lines 145-158). -/
def quickTemplate : Template :=
  { tools := ["Read", "Grep", "Glob"],
    model := "haiku", prompt := quick_prompt }

/-- Registry entry for the `orchestrator` pattern (init_agent.py lines 160-180). -/
def orchestratorTemplate : Template :=
  { tools := ["Read", "Grep", "Glob", "Task", "TodoWrite"],
    model := "opus", prompt := orchestrator_prompt }

/-- Registry entry for the `planner` pattern (init_agent.py lines 182-217). -/
def plannerTemplate : Template :=
  { tools := ["Read", "Grep", "Glob", "WebSearch"],
    model := "opus", prompt := planner_prompt }

/-- The `TEMPLATES` dictionary (init_agent.py lines 27-218) as an association
list; Python dictionaries preserve insertion order, so the key order below is
the order of `TEMPLATES.keys()`. -/
def TEMPLATES : List (String × Template) :=
  [("researcher", researcherTemplate),
   ("reviewer", reviewerTemplate),
   ("specialist", specialistTemplate),
   ("builder", builderTemplate),
   ("quick", quickTemplate),
   ("orchestrator", orchestratorTemplate),
   ("planner", plannerTemplate)]

/-- Python's `sep.join(parts)`: the separator is placed between consecutive
elements, with no leading or trailing separator. -/
def strJoin (sep : String) : List String → String
  | [] => ""
  | [x] => x
  | x :: y :: rest => x ++ sep ++ strJoin sep (y :: rest)

/-- Embeds the rendered file content of `create_agent` (init_agent.py lines
250-262): the f-string with `tools_yaml = "\n".join(f"  - {tool}" ...)`
spliced between `tools:` and `model:`. -/
def renderContent (name : String) (t : Template) : String :=
  "---\nname: " ++ name ++
    "\ndescription: \"TODO: Describe when to use this agent\"\ntools:\n" ++
    strJoin "\n" (t.tools.map (fun tool => "  - " ++ tool)) ++
    "\nmodel: " ++ t.model ++ "\n---\n\n" ++ t.prompt ++ "\n"

/-- Capability block as the spec's layout describes it: one line per
capability, indented two spaces, hyphen-prefixed, each line ending in a
newline, in registry order. -/
def capabilityLines : List String → String
  | [] => ""
  | tool :: rest => "  - " ++ tool ++ "\n" ++ capabilityLines rest

/-- Filesystem state: the set of existing directories and the files, each a
path (list of components) with its text content.  New writes are prepended;
`List.lookup` therefore sees the most recent content of a path. -/
structure FS where
  dirs : List (List String)
  files : List (List String × String)
deriving DecidableEq

/-- The empty filesystem. -/
def emptyFS : FS := { dirs := [], files := [] }

/-- Adds a directory if it is not already present. -/
def addDir (ds : List (List String)) (d : List String) : List (List String) :=
  if d ∈ ds then ds else d :: ds

/-- All nonempty prefixes of a directory path: the directory itself and every
ancestor that `mkdir(parents=True)` would have to create. -/
def dirChain (d : List String) : List (List String) :=
  (List.range d.length).map (fun i => d.take (i + 1))

/-- Embeds `path.mkdir(parents=True, exist_ok=True)` (init_agent.py line 241):
creates the directory and all missing ancestors, never failing when they
already exist. -/
def mkdirParents (fs : FS) (d : List String) : FS :=
  { fs with dirs := (dirChain d).foldl addDir fs.dirs }

/-- Embeds `Path.write_text` (init_agent.py line 264): creates or truncates the
file at a path and stores the content. -/
def writeText (fs : FS) (p : List String) (c : String) : FS :=
  { fs with files := (p, c) :: fs.files }

/-- The target file path `path / f"{name}.md"` (init_agent.py line 244). -/
def agentFilePath (dir : List String) (name : String) : List String :=
  dir ++ [name ++ ".md"]

/-- Renders a path for a diagnostic message. -/
def pathToString (p : List String) : String := strJoin "/" p

/-- The error taxonomy of `create_agent`: invalid agent name, unknown template
pattern, or target file already present. -/
inductive CreateError where
  | invalidName
  | unknownPattern
  | alreadyExists
deriving DecidableEq

/-- Result of `create_agent`: the path of the written file, or the error on
which the script called `sys.exit(1)`. -/
inductive CreateResult where
  | ok (path : List String)
  | error (e : CreateError)
deriving DecidableEq

/-- Output channel of a printed message.  The script prints every diagnostic
with `print(...)`, which goes to standard output; nothing is sent to standard
error by `create_agent`. -/
inductive OutStream where
  | stdout
  | stderr
deriving DecidableEq

/-- Observable outcome of one `create_agent` invocation: the filesystem after
the call, the returned path or terminal error, the messages printed by
`create_agent`, and the process exit status (1 via `sys.exit(1)` on error;
0 when `create_agent` returns and `main` finishes normally). -/
structure RunResult where
  fs : FS
  result : CreateResult
  output : List (OutStream × String)
  exitCode : Nat
deriving DecidableEq

/-- Embeds `create_agent` (init_agent.py lines 226-266) together with its exit
behaviour: validate the name, look the pattern up in `TEMPLATES`, create the
directory chain, refuse an existing target file, otherwise render and write
the file.  The success messages printed afterwards by `main` are not modelled;
only the diagnostics printed inside `create_agent` are. -/
def run (fs : FS) (name : String) (dir : List String) (pattern : String) : RunResult :=
  if validate_name name then
    match TEMPLATES.lookup pattern with
    | some template =>
      let fs1 := mkdirParents fs dir
      let agent_file := agentFilePath dir name
      if (fs1.files.lookup agent_file).isSome then
        { fs := fs1, result := .error .alreadyExists,
          output := [(.stdout, "Error: Agent file already exists: " ++ pathToString agent_file)],
          exitCode := 1 }
      else
        { fs := writeText fs1 agent_file (renderContent name template),
          result := .ok agent_file, output := [], exitCode := 0 }
    | none =>
      { fs := fs, result := .error .unknownPattern,
        output := [(.stdout, "Error: Unknown pattern \x27" ++ pattern ++ "\x27"),
                   (.stdout, "Available patterns: " ++ strJoin ", " (TEMPLATES.map Prod.fst))],
        exitCode := 1 }
  else
    { fs := fs, result := .error .invalidName,
      output := [(.stdout, "Error: Agent name must be lowercase with hyphens only (got: " ++ name ++ ")")],
      exitCode := 1 }

theorem mkdirParents_files (fs : FS) (d : List String) :
    (mkdirParents fs d).files = fs.files := rfl

theorem writeText_dirs (fs : FS) (p : List String) (c : String) :
    (writeText fs p c).dirs = fs.dirs := rfl

theorem mkdirParents_dirs (fs : FS) (d : List String) :
    (mkdirParents fs d).dirs = (dirChain d).foldl addDir fs.dirs := rfl

theorem lookup_writeText_self (fs : FS) (p : List String) (c : String) :
    (writeText fs p c).files.lookup p = some c := by
  simp [writeText, List.lookup]

theorem run_of_invalid (fs : FS) (name : String) (dir : List String) (pattern : String)
    (h : validate_name name = false) :
    run fs name dir pattern =
      { fs := fs, result := .error .invalidName,
        output := [(.stdout,
          "Error: Agent name must be lowercase with hyphens only (got: " ++ name ++ ")")],
        exitCode := 1 } := by
  simp [run, h]

theorem run_of_unknown (fs : FS) (name : String) (dir : List String) (pattern : String)
    (hn : validate_name name = true) (hp : TEMPLATES.lookup pattern = none) :
    run fs name dir pattern =
      { fs := fs, result := .error .unknownPattern,
        output := [(.stdout, "Error: Unknown pattern \x27" ++ pattern ++ "\x27"),
                   (.stdout, "Available patterns: " ++ strJoin ", " (TEMPLATES.map Prod.fst))],
        exitCode := 1 } := by
  simp [run, hn, hp]

theorem run_of_exists (fs : FS) (name : String) (dir : List String) (pattern : String)
    (t : Template) (hn : validate_name name = true)
    (ht : TEMPLATES.lookup pattern = some t)
    (hex : (fs.files.lookup (agentFilePath dir name)).isSome = true) :
    run fs name dir pattern =
      { fs := mkdirParents fs dir, result := .error .alreadyExists,
        output := [(.stdout,
          "Error: Agent file already exists: " ++ pathToString (agentFilePath dir name))],
        exitCode := 1 } := by
  simp [run, hn, ht, mkdirParents_files, hex]

theorem run_of_success (fs : FS) (name : String) (dir : List String) (pattern : String)
    (t : Template) (hn : validate_name name = true)
    (ht : TEMPLATES.lookup pattern = some t)
    (hab : fs.files.lookup (agentFilePath dir name) = none) :
    run fs name dir pattern =
      { fs := writeText (mkdirParents fs dir) (agentFilePath dir name)
                (renderContent name t),
        result := .ok (agentFilePath dir name), output := [], exitCode := 0 } := by
  simp [run, hn, ht, mkdirParents_files, hab]

theorem addDir_mem_self (ds : List (List String)) (d : List String) :
    d ∈ addDir ds d := by
  unfold addDir
  split
  · assumption
  · exact List.mem_cons_self d ds

theorem addDir_mem_mono (ds : List (List String)) (d x : List String)
    (h : x ∈ ds) : x ∈ addDir ds d := by
  unfold addDir
  split
  · exact h
  · exact List.mem_cons_of_mem d h

theorem addDir_eq_of_mem (ds : List (List String)) (d : List String)
    (h : d ∈ ds) : addDir ds d = ds := by
  simp [addDir, h]

theorem foldl_addDir_mono (l : List (List String)) (ds : List (List String))
    (x : List String) (h : x ∈ ds) : x ∈ l.foldl addDir ds := by
  induction l generalizing ds with
  | nil => exact h
  | cons a tl ih => exact ih (addDir ds a) (addDir_mem_mono ds a x h)

theorem foldl_addDir_mem (l : List (List String)) (ds : List (List String))
    (x : List String) (h : x ∈ l) : x ∈ l.foldl addDir ds := by
  induction l generalizing ds with
  | nil => cases h
  | cons a tl ih =>
    rcases List.mem_cons.mp h with rfl | h
    · exact foldl_addDir_mono tl (addDir ds x) x (addDir_mem_self ds x)
    · exact ih (addDir ds a) h

theorem foldl_addDir_id (l : List (List String)) (ds : List (List String))
    (h : ∀ x ∈ l, x ∈ ds) : l.foldl addDir ds = ds := by
  induction l with
  | nil => rfl
  | cons a tl ih =>
    have ha : addDir ds a = ds := addDir_eq_of_mem ds a (h a (List.mem_cons_self a tl))
    simp only [List.foldl_cons, ha]
    exact ih (fun x hx => h x (List.mem_cons_of_mem a hx))

theorem mkdirParents_mem (fs : FS) (d : List String) (p : List String)
    (h : p ∈ dirChain d) : p ∈ (mkdirParents fs d).dirs :=
  foldl_addDir_mem (dirChain d) fs.dirs p h

theorem mkdirParents_id (fs : FS) (d : List String)
    (h : ∀ p ∈ dirChain d, p ∈ fs.dirs) : mkdirParents fs d = fs := by
  have : (dirChain d).foldl addDir fs.dirs = fs.dirs := foldl_addDir_id _ _ h
  unfold mkdirParents
  rw [this]

theorem lookup_mem {β : Type} (l : List (String × β)) (k : String) (t : β)
    (h : l.lookup k = some t) : (k, t) ∈ l := by
  induction l with
  | nil => cases h
  | cons a tl ih =>
    rw [List.lookup] at h
    split at h
    · rename_i heq
      cases h
      have : k = a.1 := eq_of_beq heq
      subst this
      exact List.mem_cons_self _ _
    · exact List.mem_cons_of_mem a (ih h)

theorem strJoin_cons_cons (sep x y : String) (rest : List String) :
    strJoin sep (x :: y :: rest) = x ++ sep ++ strJoin sep (y :: rest) := rfl

theorem capabilityLines_eq (l : List String) (h : l ≠ []) :
    capabilityLines l = strJoin "\n" (l.map (fun tool => "  - " ++ tool)) ++ "\n" := by
  induction l with
  | nil => exact absurd rfl h
  | cons x tl ih =>
    cases tl with
    | nil =>
      show ("  - " ++ x ++ "\n") ++ "" = ("  - " ++ x) ++ "\n"
      rw [String.append_empty]
    | cons y rest =>
      have ihy := ih (by simp)
      calc capabilityLines (x :: y :: rest)
          = ("  - " ++ x ++ "\n") ++ capabilityLines (y :: rest) := rfl
        _ = ("  - " ++ x ++ "\n") ++
              (strJoin "\n" ((y :: rest).map (fun tool => "  - " ++ tool)) ++ "\n") := by
              rw [ihy]
        _ = (("  - " ++ x ++ "\n") ++
              strJoin "\n" ((y :: rest).map (fun tool => "  - " ++ tool))) ++ "\n" :=
              (String.append_assoc _ _ _).symm
        _ = strJoin "\n" ((x :: y :: rest).map (fun tool => "  - " ++ tool)) ++ "\n" := rfl

theorem templates_entries_nonempty :
    ∀ e ∈ TEMPLATES, e.2.tools ≠ [] ∧ e.2.model ≠ "" ∧ e.2.prompt ≠ "" := by
  decide

theorem tools_nonempty_of_lookup (k : String) (t : Template)
    (h : TEMPLATES.lookup k = some t) : t.tools ≠ [] :=
  (templates_entries_nonempty (k, t) (lookup_mem TEMPLATES k t h)).1

theorem renderContent_eq_layout (name : String) (t : Template) (h : t.tools ≠ []) :
    renderContent name t =
      "---\nname: " ++ name ++
        "\ndescription: \"TODO: Describe when to use this agent\"\ntools:\n" ++
        capabilityLines t.tools ++ "model: " ++ t.model ++ "\n---\n\n" ++
        t.prompt ++ "\n" := by
  have nm : ("\n" : String) ++ "model: " = "\nmodel: " := rfl
  have key : ("---\nname: " ++ name ++
        "\ndescription: \"TODO: Describe when to use this agent\"\ntools:\n") ++
        strJoin "\n" (t.tools.map (fun tool => "  - " ++ tool)) ++ "\nmodel: " =
      ("---\nname: " ++ name ++
        "\ndescription: \"TODO: Describe when to use this agent\"\ntools:\n") ++
        capabilityLines t.tools ++ "model: " := by
    rw [capabilityLines_eq t.tools h, ← String.append_assoc,
      String.append_assoc _ "\n" "model: ", nm]
  unfold renderContent
  rw [key]

/-- C1: the claim says `validate_name` accepts exactly the strings matching
`^[a-z][a-z0-9-]*$` and rejects every string containing whitespace.  The code
disagrees: Python's `$` also matches just before a trailing newline, so
`validate_name` accepts the string consisting of a lowercase letter followed
by one newline, which the anchored pattern (and the function's own docstring,
"lowercase with hyphens only") rejects. -/
theorem validate_name_trailing_newline_bug :
    validate_name "a\n" = true ∧ specNamePattern "a\n" = false := by
  decide

/-- C2: with a valid name, a registered pattern and an initially absent target
file, the first `create_agent` call succeeds and returns `directory/name.md`,
the second identical call fails with `AlreadyExists`, exits non-zero and leaves
the file table untouched; moreover whenever the target file exists with some
content, a call leaves that content unchanged. -/
theorem create_agent_twice_spec (fs : FS) (name : String) (dir : List String)
    (pattern : String) (t : Template)
    (hn : validate_name name = true)
    (ht : TEMPLATES.lookup pattern = some t)
    (hf : fs.files.lookup (agentFilePath dir name) = none) :
    (run fs name dir pattern).result = CreateResult.ok (agentFilePath dir name) ∧
    (run (run fs name dir pattern).fs name dir pattern).result =
      CreateResult.error CreateError.alreadyExists ∧
    (run (run fs name dir pattern).fs name dir pattern).exitCode = 1 ∧
    (run (run fs name dir pattern).fs name dir pattern).fs.files =
      (run fs name dir pattern).fs.files ∧
    (∀ (fs2 : FS) (c : String),
      fs2.files.lookup (agentFilePath dir name) = some c →
      (run fs2 name dir pattern).fs.files.lookup (agentFilePath dir name) = some c) := by
  have h1 := run_of_success fs name dir pattern t hn ht hf
  have hex : ((run fs name dir pattern).fs.files.lookup (agentFilePath dir name)).isSome
      = true := by
    rw [h1]
    simp [lookup_writeText_self]
  have h2 := run_of_exists (run fs name dir pattern).fs name dir pattern t hn ht hex
  refine ⟨by rw [h1], by rw [h2], by rw [h2], by rw [h2]; exact mkdirParents_files _ _, ?_⟩
  intro fs2 c hc
  have hex2 : (fs2.files.lookup (agentFilePath dir name)).isSome = true := by
    rw [hc]
    rfl
  have h3 := run_of_exists fs2 name dir pattern t hn ht hex2
  rw [h3]
  exact hc

/-- Witness for C2 at a concrete input. -/
theorem create_agent_twice_spec_witness :
    (run emptyFS "my-agent" ["agents"] "quick").result =
      CreateResult.ok (agentFilePath ["agents"] "my-agent") ∧
    (run (run emptyFS "my-agent" ["agents"] "quick").fs "my-agent" ["agents"] "quick").result =
      CreateResult.error CreateError.alreadyExists ∧
    (run (run emptyFS "my-agent" ["agents"] "quick").fs "my-agent" ["agents"] "quick").exitCode
      = 1 ∧
    (run (run emptyFS "my-agent" ["agents"] "quick").fs "my-agent" ["agents"] "quick").fs.files =
      (run emptyFS "my-agent" ["agents"] "quick").fs.files ∧
    (∀ (fs2 : FS) (c : String),
      fs2.files.lookup (agentFilePath ["agents"] "my-agent") = some c →
      (run fs2 "my-agent" ["agents"] "quick").fs.files.lookup
        (agentFilePath ["agents"] "my-agent") = some c) :=
  create_agent_twice_spec emptyFS "my-agent" ["agents"] "quick" quickTemplate
    (by decide) (by decide) rfl

/-- C3: for every registered pattern, a successful `create_agent` writes the
file whose frontmatter tools and model come from that pattern's registry entry
and whose body is the registry prompt verbatim (the written content is the
rendering of the registry entry); concretely, creating `code-reviewer` under
`/tmp/agents` with the `reviewer` pattern yields `/tmp/agents/code-reviewer.md`
holding `name: code-reviewer`, `model: sonnet`, the tools `Read, Grep, Glob,
Bash`, and the reviewer prompt body verbatim. -/
theorem create_agent_template_fidelity :
    (∀ (fs : FS) (name : String) (dir : List String) (pattern : String) (t : Template),
      validate_name name = true → TEMPLATES.lookup pattern = some t →
      fs.files.lookup (agentFilePath dir name) = none →
      (run fs name dir pattern).fs.files.lookup (agentFilePath dir name) =
        some (renderContent name t)) ∧
    (run emptyFS "code-reviewer" ["tmp", "agents"] "reviewer").result =
      CreateResult.ok ["tmp", "agents", "code-reviewer.md"] ∧
    (run emptyFS "code-reviewer" ["tmp", "agents"] "reviewer").fs.files.lookup
        ["tmp", "agents", "code-reviewer.md"] =
      some ("---\nname: code-reviewer\ndescription: \"TODO: Describe when to use this agent\"\ntools:\n  - Read\n  - Grep\n  - Glob\n  - Bash\nmodel: sonnet\n---\n\n" ++ reviewer_prompt ++ "\n") := by
  refine ⟨?_, by decide, by decide⟩
  intro fs name dir pattern t hn ht hf
  rw [run_of_success fs name dir pattern t hn ht hf]
  exact lookup_writeText_self _ _ _

/-- Witness for C3 at a concrete input. -/
theorem create_agent_template_fidelity_witness :
    (run emptyFS "helper" ["d"] "builder").fs.files.lookup (agentFilePath ["d"] "helper") =
      some (renderContent "helper" builderTemplate) :=
  create_agent_template_fidelity.1 emptyFS "helper" ["d"] "builder" builderTemplate
    (by decide) (by decide) rfl

/-- C4: a successful `create_agent` writes exactly the fixed layout: the
opening delimiter line, the `name:` line, the fixed `description:` line, the
`tools:` header followed by one two-space-indented hyphen-prefixed line per
capability in registry order, the `model:` line, the closing delimiter, one
blank line, then the prompt body with a trailing newline. -/
theorem create_agent_file_layout (fs : FS) (name : String) (dir : List String)
    (pattern : String) (t : Template)
    (hn : validate_name name = true)
    (ht : TEMPLATES.lookup pattern = some t)
    (hf : fs.files.lookup (agentFilePath dir name) = none) :
    (run fs name dir pattern).fs.files.lookup (agentFilePath dir name) =
      some ("---\nname: " ++ name ++
        "\ndescription: \"TODO: Describe when to use this agent\"\ntools:\n" ++
        capabilityLines t.tools ++ "model: " ++ t.model ++ "\n---\n\n" ++
        t.prompt ++ "\n") := by
  rw [run_of_success fs name dir pattern t hn ht hf, lookup_writeText_self,
    renderContent_eq_layout name t (tools_nonempty_of_lookup pattern t ht)]

/-- Witness for C4 at a concrete input. -/
theorem create_agent_file_layout_witness :
    (run emptyFS "x" ["d"] "quick").fs.files.lookup (agentFilePath ["d"] "x") =
      some ("---\nname: " ++ "x" ++
        "\ndescription: \"TODO: Describe when to use this agent\"\ntools:\n" ++
        capabilityLines quickTemplate.tools ++ "model: " ++ quickTemplate.model ++
        "\n---\n\n" ++ quickTemplate.prompt ++ "\n") :=
  create_agent_file_layout emptyFS "x" ["d"] "quick" quickTemplate
    (by decide) (by decide) rfl

/-- C5: with a valid name (the script checks the name first, so an invalid
name takes precedence) and a pattern outside the registry, `create_agent`
fails with `UnknownPattern`, exits non-zero, reports the list of valid pattern
names, and leaves the filesystem untouched. -/
theorem create_agent_unknown_pattern_spec (fs : FS) (name : String)
    (dir : List String) (pattern : String)
    (hn : validate_name name = true) (hp : TEMPLATES.lookup pattern = none) :
    (run fs name dir pattern).result = CreateResult.error CreateError.unknownPattern ∧
    (run fs name dir pattern).exitCode = 1 ∧
    (run fs name dir pattern).fs = fs ∧
    (run fs name dir pattern).output =
      [(OutStream.stdout, "Error: Unknown pattern \x27" ++ pattern ++ "\x27"),
       (OutStream.stdout,
        "Available patterns: researcher, reviewer, specialist, builder, quick, orchestrator, planner")] := by
  have h := run_of_unknown fs name dir pattern hn hp
  have hlist : strJoin ", " (TEMPLATES.map Prod.fst) =
      "researcher, reviewer, specialist, builder, quick, orchestrator, planner" := by
    decide
  refine ⟨by rw [h], by rw [h], by rw [h], ?_⟩
  rw [h]
  show [(OutStream.stdout, "Error: Unknown pattern \x27" ++ pattern ++ "\x27"),
        (OutStream.stdout, "Available patterns: " ++ strJoin ", " (TEMPLATES.map Prod.fst))] = _
  rw [hlist]
  rfl

/-- Witness for C5 at a concrete input. -/
theorem create_agent_unknown_pattern_spec_witness :
    (run emptyFS "my-agent" ["agents"] "bogus").result =
      CreateResult.error CreateError.unknownPattern ∧
    (run emptyFS "my-agent" ["agents"] "bogus").exitCode = 1 ∧
    (run emptyFS "my-agent" ["agents"] "bogus").fs = emptyFS ∧
    (run emptyFS "my-agent" ["agents"] "bogus").output =
      [(OutStream.stdout, "Error: Unknown pattern \x27" ++ "bogus" ++ "\x27"),
       (OutStream.stdout,
        "Available patterns: researcher, reviewer, specialist, builder, quick, orchestrator, planner")] :=
  create_agent_unknown_pattern_spec emptyFS "my-agent" ["agents"] "bogus"
    (by decide) (by decide)

/-- C6: for every name the validator rejects, `create_agent` fails with
`InvalidName`, exits non-zero, and the filesystem is completely unchanged: no
directory and no file is created. -/
theorem create_agent_invalid_name_spec (fs : FS) (name : String)
    (dir : List String) (pattern : String)
    (h : validate_name name = false) :
    (run fs name dir pattern).result = CreateResult.error CreateError.invalidName ∧
    (run fs name dir pattern).exitCode = 1 ∧
    (run fs name dir pattern).fs = fs := by
  have hr := run_of_invalid fs name dir pattern h
  exact ⟨by rw [hr], by rw [hr], by rw [hr]⟩

/-- Witness for C6 at the spec's example name. -/
theorem create_agent_invalid_name_spec_witness :
    (run emptyFS "Invalid_Name" ["agents"] "specialist").result =
      CreateResult.error CreateError.invalidName ∧
    (run emptyFS "Invalid_Name" ["agents"] "specialist").exitCode = 1 ∧
    (run emptyFS "Invalid_Name" ["agents"] "specialist").fs = emptyFS :=
  create_agent_invalid_name_spec emptyFS "Invalid_Name" ["agents"] "specialist"
    (by decide)

/-- C7: on success `create_agent` creates the target directory and every
missing ancestor (all nonempty prefixes of the target directory exist
afterwards), and the directory-creation step is idempotent: when the whole
chain already exists the call still succeeds and the directory set is
unchanged. -/
theorem create_agent_creates_directories (fs : FS) (name : String)
    (dir : List String) (pattern : String) (t : Template)
    (hn : validate_name name = true)
    (ht : TEMPLATES.lookup pattern = some t)
    (hf : fs.files.lookup (agentFilePath dir name) = none) :
    (run fs name dir pattern).result = CreateResult.ok (agentFilePath dir name) ∧
    (∀ p ∈ dirChain dir, p ∈ (run fs name dir pattern).fs.dirs) ∧
    ((∀ p ∈ dirChain dir, p ∈ fs.dirs) → (run fs name dir pattern).fs.dirs = fs.dirs) := by
  have h := run_of_success fs name dir pattern t hn ht hf
  refine ⟨by rw [h], ?_, ?_⟩
  · intro p hp
    rw [h]
    exact mkdirParents_mem fs dir p hp
  · intro hall
    rw [h]
    show (mkdirParents fs dir).dirs = fs.dirs
    rw [mkdirParents_id fs dir hall]

/-- Witness for C7: a three-level target directory is created from an empty
filesystem. -/
theorem create_agent_creates_directories_witness :
    (run emptyFS "my-agent" ["home", "user", "agents"] "planner").result =
      CreateResult.ok (agentFilePath ["home", "user", "agents"] "my-agent") ∧
    ["home"] ∈ (run emptyFS "my-agent" ["home", "user", "agents"] "planner").fs.dirs ∧
    ["home", "user"] ∈ (run emptyFS "my-agent" ["home", "user", "agents"] "planner").fs.dirs ∧
    ["home", "user", "agents"] ∈
      (run emptyFS "my-agent" ["home", "user", "agents"] "planner").fs.dirs :=
  have h := create_agent_creates_directories emptyFS "my-agent" ["home", "user", "agents"]
    "planner" plannerTemplate (by decide) (by decide) rfl
  ⟨h.1, h.2.1 ["home"] (by decide), h.2.1 ["home", "user"] (by decide),
    h.2.1 ["home", "user", "agents"] (by decide)⟩

/-- C8: the registry keys are exactly the seven pattern names in insertion
order; lookup is an exact key match (anything it returns is literally an entry
of the registry, and it succeeds exactly on the seven names); and every entry
has non-empty tools, a non-empty model identifier and a non-empty prompt. -/
theorem template_registry_spec :
    TEMPLATES.map Prod.fst =
      ["researcher", "reviewer", "specialist", "builder", "quick", "orchestrator",
       "planner"] ∧
    (∀ (k : String) (t : Template), TEMPLATES.lookup k = some t → (k, t) ∈ TEMPLATES) ∧
    (∀ k : String, (TEMPLATES.lookup k).isSome = true ↔
      k ∈ ["researcher", "reviewer", "specialist", "builder", "quick", "orchestrator",
       "planner"]) ∧
    (∀ e ∈ TEMPLATES, e.2.tools ≠ [] ∧ e.2.model ≠ "" ∧ e.2.prompt ≠ "") := by
  refine ⟨by decide, fun k t h => lookup_mem TEMPLATES k t h, ?_, templates_entries_nonempty⟩
  intro k
  constructor
  · intro h
    obtain ⟨t, ht⟩ := Option.isSome_iff_exists.mp h
    have hm := lookup_mem TEMPLATES k t ht
    have hk : k ∈ TEMPLATES.map Prod.fst := List.mem_map_of_mem Prod.fst hm
    have hkeys : TEMPLATES.map Prod.fst =
        ["researcher", "reviewer", "specialist", "builder", "quick", "orchestrator",
         "planner"] := by decide
    rw [hkeys] at hk
    exact hk
  · intro h
    fin_cases h <;> decide

/-- Witness for C8 at concrete keys. -/
theorem template_registry_spec_witness :
    ("reviewer", reviewerTemplate) ∈ TEMPLATES ∧
    (TEMPLATES.lookup "orchestrator").isSome = true ∧
    reviewerTemplate.tools ≠ [] :=
  ⟨template_registry_spec.2.1 "reviewer" reviewerTemplate (by decide),
   (template_registry_spec.2.2.1 "orchestrator").mpr (by decide),
   (template_registry_spec.2.2.2 ("reviewer", reviewerTemplate)
     (template_registry_spec.2.1 "reviewer" reviewerTemplate (by decide))).1⟩

/-- C9 counterexample: the claim says every failure prints a one-line
diagnostic to the error stream.  At the concrete failing input (unknown
pattern `bogus`) the script prints two lines, and they go to standard output,
not standard error; so the claim as stated is false. -/
theorem run_error_stream_counterexample :
    ¬ ((run emptyFS "my-agent" ["agents"] "bogus").output.length = 1 ∧
       ∀ m ∈ (run emptyFS "my-agent" ["agents"] "bogus").output,
         m.1 = OutStream.stderr) := by
  decide

/-- C9 amended: every `create_agent` failure (InvalidName, UnknownPattern,
AlreadyExists) exits with status 1 after printing a human-readable diagnostic
to standard output — one line, except UnknownPattern which prints two — and
the exit status is 0 exactly when a new file was written (in which case the
target file is present afterwards). -/
theorem run_exit_code_spec (fs : FS) (name : String) (dir : List String)
    (pattern : String) :
    ((run fs name dir pattern).exitCode = 0 ∨ (run fs name dir pattern).exitCode = 1) ∧
    ((run fs name dir pattern).exitCode = 0 ↔ (run fs name dir pattern).fs.files ≠ fs.files) ∧
    ((run fs name dir pattern).exitCode = 0 →
      (run fs name dir pattern).fs.files.lookup (agentFilePath dir name) ≠ none) ∧
    (∀ e, (run fs name dir pattern).result = CreateResult.error e →
      (run fs name dir pattern).exitCode = 1 ∧
      (∀ m ∈ (run fs name dir pattern).output, m.1 = OutStream.stdout) ∧
      (run fs name dir pattern).output.length =
        (if e = CreateError.unknownPattern then 2 else 1)) := by
  cases hv : validate_name name with
  | false =>
    have h := run_of_invalid fs name dir pattern hv
    rw [h]
    refine ⟨Or.inr rfl, ?_, ?_, ?_⟩
    · exact ⟨fun h0 => absurd h0 Nat.one_ne_zero, fun hne => absurd rfl hne⟩
    · intro h0
      exact absurd h0 Nat.one_ne_zero
    · intro e he
      have : CreateError.invalidName = e := by
        injection he
      subst this
      refine ⟨rfl, ?_, rfl⟩
      intro m hm
      rcases List.mem_singleton.mp hm with rfl
      rfl
  | true =>
    cases hl : TEMPLATES.lookup pattern with
    | none =>
      have h := run_of_unknown fs name dir pattern hv hl
      rw [h]
      refine ⟨Or.inr rfl, ?_, ?_, ?_⟩
      · exact ⟨fun h0 => absurd h0 Nat.one_ne_zero, fun hne => absurd rfl hne⟩
      · intro h0
        exact absurd h0 Nat.one_ne_zero
      · intro e he
        have : CreateError.unknownPattern = e := by
          injection he
        subst this
        refine ⟨rfl, ?_, rfl⟩
        intro m hm
        rcases List.mem_cons.mp hm with rfl | hm2
        · rfl
        · rcases List.mem_singleton.mp hm2 with rfl
          rfl
    | some t =>
      cases hab : fs.files.lookup (agentFilePath dir name) with
      | some c =>
        have hex : (fs.files.lookup (agentFilePath dir name)).isSome = true := by
          rw [hab]
          rfl
        have h := run_of_exists fs name dir pattern t hv hl hex
        rw [h]
        refine ⟨Or.inr rfl, ?_, ?_, ?_⟩
        · constructor
          · intro h0
            exact absurd h0 Nat.one_ne_zero
          · intro hne
            exact absurd (mkdirParents_files fs dir) hne
        · intro h0
          exact absurd h0 Nat.one_ne_zero
        · intro e he
          have : CreateError.alreadyExists = e := by
            injection he
          subst this
          refine ⟨rfl, ?_, rfl⟩
          intro m hm
          rcases List.mem_singleton.mp hm with rfl
          rfl
      | none =>
        have h := run_of_success fs name dir pattern t hv hl hab
        rw [h]
        refine ⟨Or.inl rfl, ?_, ?_, ?_⟩
        · constructor
          · intro _
            show (agentFilePath dir name, renderContent name t) :: fs.files ≠ fs.files
            exact List.cons_ne_self _ _
          · intro _
            rfl
        · intro _
          show ((writeText (mkdirParents fs dir) (agentFilePath dir name)
            (renderContent name t)).files.lookup (agentFilePath dir name)) ≠ none
          rw [lookup_writeText_self]
          exact fun hx => Option.noConfusion hx
        · intro e he
          exact absurd he (by exact fun hx => CreateResult.noConfusion hx)

/-- Witness for C9 at a concrete failing input. -/
theorem run_exit_code_spec_witness :
    (run emptyFS "my-agent" ["agents"] "bogus").exitCode = 1 ∧
    (run emptyFS "my-agent" ["agents"] "bogus").output.length = 2 :=
  have h := run_exit_code_spec emptyFS "my-agent" ["agents"] "bogus"
  have he := h.2.2.2 CreateError.unknownPattern (by decide)
  ⟨he.1, by rw [he.2.2]; decide⟩

/-- C10: when `create_agent` fails with `AlreadyExists` (valid name, known
pattern, target file present), the directory chain has nevertheless been
created, because `mkdir(parents=True, exist_ok=True)` runs before the
existence check; the file table itself is unchanged. -/
theorem create_agent_already_exists_side_effect (fs : FS) (name : String)
    (dir : List String) (pattern : String) (t : Template) (c : String)
    (hn : validate_name name = true)
    (ht : TEMPLATES.lookup pattern = some t)
    (hc : fs.files.lookup (agentFilePath dir name) = some c) :
    (run fs name dir pattern).result = CreateResult.error CreateError.alreadyExists ∧
    (∀ p ∈ dirChain dir, p ∈ (run fs name dir pattern).fs.dirs) ∧
    (run fs name dir pattern).fs.files = fs.files ∧
    (run fs name dir pattern).fs.files.lookup (agentFilePath dir name) = some c := by
  have hex : (fs.files.lookup (agentFilePath dir name)).isSome = true := by
    rw [hc]
    rfl
  have h := run_of_exists fs name dir pattern t hn ht hex
  refine ⟨by rw [h], ?_, by rw [h]; exact mkdirParents_files _ _, by rw [h]; exact hc⟩
  intro p hp
  rw [h]
  exact mkdirParents_mem fs dir p hp

/-- Witness for C10 at a concrete input with the target file pre-existing. -/
theorem create_agent_already_exists_side_effect_witness :
    (run ⟨[], [(["agents", "my-agent.md"], "old content")]⟩
      "my-agent" ["agents"] "quick").result =
      CreateResult.error CreateError.alreadyExists ∧
    ["agents"] ∈ (run ⟨[], [(["agents", "my-agent.md"], "old content")]⟩
      "my-agent" ["agents"] "quick").fs.dirs ∧
    (run ⟨[], [(["agents", "my-agent.md"], "old content")]⟩
      "my-agent" ["agents"] "quick").fs.files.lookup
        (agentFilePath ["agents"] "my-agent") = some "old content" :=
  have h := create_agent_already_exists_side_effect
    ⟨[], [(["agents", "my-agent.md"], "old content")]⟩
    "my-agent" ["agents"] "quick" quickTemplate "old content"
    (by decide) (by decide) (by decide)
  ⟨h.1, h.2.1 ["agents"] (by decide), h.2.2.2⟩
